import Mathlib

/-!
Verification of the MFA Enforcement Controller of the spaceone identity
service (`spaceone/identity/manager/mfa_manager/user_mfa_manager.py`).

The controller's six operations are embedded as pure Lean functions over a
value model of the user record. Python dicts are modelled as association
lists with first-match lookup; truthiness of dict values follows Python.
Side effects (Secret Store deletions, Type Strategy invocations) are
returned as an explicit call trace, so that statements about "no deletion
occurs" or "the failure happens before any strategy call" are expressible.
Collaborators that are not part of the analysed sources (the per-type MFA
strategies, the secret manager client, the dict-loading helpers of the
base manager) are modelled from the spec and marked as such.
-/

set_option linter.dupNamespace false
set_option linter.unusedVariables false

namespace Identity.MFA

/-- A value stored in a Python dict: the options maps hold booleans
(`enforce`) and strings (`email`, `user_secret_id`). -/
inductive OptVal where
  | b (v : Bool)
  | s (v : String)
deriving DecidableEq, Repr

/-- Python truthiness of a dict value: `False` and `""` are falsy. -/
def OptVal.truthy : OptVal → Bool
  | .b v => v
  | .s v => v ≠ ""

/-- The `options` dict of the mfa sub-state: an association list with
first-match lookup semantics. -/
abbrev Opts := List (String × OptVal)

/-- `d.get(k)`: first value bound to `k`, if any. -/
def optsGet (o : Opts) (k : String) : Option OptVal :=
  (o.find? (fun p => p.1 == k)).map Prod.snd

/-- Python truthiness of `d.get(k)` (where `None` is falsy). -/
def pyTruthy (v : Option OptVal) : Bool :=
  match v with
  | none => false
  | some x => x.truthy

/-- `d.pop(k, None)`: remove the binding of `k`. -/
def optsPop (o : Opts) (k : String) : Opts :=
  o.filter (fun p => p.1 ≠ k)

/-- Python `{**a, **b}`: keys of `a` in order (values overridden by `b`
where bound there), then the keys of `b` not in `a`, in order. -/
def optsMerge (a b : Opts) : Opts :=
  (a.map (fun p => match optsGet b p.1 with
    | some v => (p.1, v)
    | none => p))
  ++ b.filter (fun p => (optsGet a p.1).isNone)

/-- Truthiness of `mfa.get("mfa_type")`: `None` and `""` are falsy. -/
def mfaTypeTruthy : Option String → Bool
  | none => false
  | some s => s ≠ ""

/-- The `mfa` sub-state of a user record, as stored in the `mfa` dict:
`mfa_type` and `state` are optional keys, `options` a nested dict (an
absent `options` key is indistinguishable from `{}` in the code, which
always reads it with `.get("options", {})`). -/
structure MFA where
  mfa_type : Option String
  state : Option String
  options : Opts
deriving DecidableEq, Repr

/-- `mfa.get("state", "DISABLED")`. -/
def MFA.stateD (m : MFA) : String := m.state.getD "DISABLED"

/-- The user record fields the controller reads and writes. -/
structure User where
  user_id : String
  domain_id : String
  auth_type : String
  mfa : MFA
  required_actions : List String
deriving DecidableEq, Repr

/-- The error taxonomy raised by the controller (`spaceone.identity.error`),
plus the Python `KeyError` a missing `mfa_type` key would raise on
subscript access. -/
inductive MFAError where
  | ERROR_NOT_ALLOWED_ACTIONS (action : String)
  | ERROR_MFA_ALREADY_DISABLED (user_id : String)
  | ERROR_MFA_ALREADY_ENABLED (user_id : String)
  | ERROR_INVALID_PARAMETER (key : String) (reason : String)
  | ERROR_REQUIRED_PARAMETER (key : String)
  | ERROR_NOT_SUPPORTED_MFA_TYPE (support_mfa_types : List String)
  | ERROR_INVALID_VERIFY_CODE (verify_code : String)
  | KeyError (key : String)
deriving DecidableEq, Repr

/-- A call made to an external collaborator, recorded in order. -/
inductive ExtCall where
  | deleteSecret (domain_id : String) (user_secret_id : OptVal)
  | enableMFA (mfa_type : String) (user_id : String)
  | confirmMFA (mfa_type : String) (verify_code : String)
  | setMFAOptions (mfa_type : String)
deriving DecidableEq, Repr

/-- Modelled from the spec: the MFA Type Strategy capability set
(`EnableMFA`, `ConfirmMFA`, `SetMFAOptions`), polymorphic over the type
tag; the concrete strategy implementations are not part of the analysed
sources, so the controller is parametrised over them. Each capability
receives the type tag, the user identity, and the current mfa sub-state. -/
structure MFAStrategy where
  enable_mfa : String → String → String → MFA → MFA
  confirm_mfa : String → String → String → String → Bool
  set_mfa_options : String → MFA → String → String → MFA

/-- Modelled from the spec: `MFAManager.get_manager_by_mfa_type` (the
registry of `base.py`, not among the analysed sources) resolves the type
tag over the two registered variants OTP and EMAIL; an unregistered tag
fails with `NotSupportedMFAType`. -/
def get_manager_by_mfa_type (mfa_type : String) : Except MFAError Unit :=
  if mfa_type = "EMAIL" ∨ mfa_type = "OTP" then .ok ()
  else .error (.ERROR_NOT_SUPPORTED_MFA_TYPE ["EMAIL", "OTP"])

/-- Modelled from the spec: `_get_user_mfa_as_dict` (defined on the base
manager, not among the analysed sources) reads the current mfa sub-state
from the user record as a fresh dict ("All operations read the current
`mfa` sub-state from the given User"). -/
def get_user_mfa_as_dict (user_vo : User) : MFA := user_vo.mfa

/-- Modelled from the spec: `_get_user_mfa_for_confirmation` (not among
the analysed sources) loads the pending MFA sub-state of the user for the
confirmation operations. -/
def get_user_mfa_for_confirmation (user_vo : User) : MFA := user_vo.mfa

/-- `UserMFAManager._delete_otp_secret`: re-reads the user's mfa dict and,
when `options.user_secret_id` is truthy, deletes that secret through the
Secret Store under the system token, scoped to `domain_id`. -/
def delete_otp_secret (user_vo : User) (domain_id : String) : List ExtCall :=
  let user_mfa := get_user_mfa_as_dict user_vo
  let user_secret_id := optsGet user_mfa.options "user_secret_id"
  if pyTruthy user_secret_id then
    [.deleteSecret domain_id (user_secret_id.getD (.s ""))]
  else []

/-- `UserMFAManager._check_mfa_is_enforced` raises exactly when enforcement
is active (`options.enforce` truthy), a type is stored, and the requested
type differs from the stored one. -/
def check_mfa_is_enforced_raises (user_mfa : MFA) (mfa_type : String) : Bool :=
  pyTruthy (optsGet user_mfa.options "enforce")
  ∧ mfaTypeTruthy user_mfa.mfa_type
  ∧ user_mfa.mfa_type ≠ some mfa_type

/-- `UserMFAManager._check_mfa_options`: EMAIL requires an `email` key in
the caller-supplied options. -/
def check_mfa_options_raises (options : Opts) (mfa_type : String) : Bool :=
  mfa_type = "EMAIL" ∧ (optsGet options "email").isNone

/-- `UserMFAManager.set_enforcement`. Returns the new mfa sub-state and
required-actions list (or the raised error), together with the trace of
external calls performed. -/
def set_enforcement (user_vo : User) (mfa_type : String) (domain_id : String) :
    Except MFAError (MFA × List String) × List ExtCall :=
  if user_vo.auth_type = "EXTERNAL" then
    (.error (.ERROR_NOT_ALLOWED_ACTIONS "MFA"), [])
  else
    let user_mfa := get_user_mfa_as_dict user_vo
    let required_actions := user_vo.required_actions.dedup
    let switched : MFA × List ExtCall :=
      if user_mfa.mfa_type ≠ some mfa_type then
        (⟨some mfa_type, some "DISABLED", []⟩,
         if user_mfa.mfa_type = some "OTP" then delete_otp_secret user_vo domain_id
         else [])
      else (user_mfa, [])
    let user_mfa2 : MFA := { switched.1 with options := [("enforce", .b true)] }
    let required_actions2 :=
      if "ENFORCE_MFA" ∈ required_actions then required_actions
      else required_actions ++ ["ENFORCE_MFA"]
    (.ok (user_mfa2, required_actions2), switched.2)

/-- `UserMFAManager.unset_enforcement`: clears `mfa_type` when the state is
DISABLED, pops `options.enforce`, and removes `ENFORCE_MFA`. Never fails
and performs no external call. -/
def unset_enforcement (user_vo : User) :
    Except MFAError (MFA × List String) × List ExtCall :=
  let user_mfa := get_user_mfa_as_dict user_vo
  let required_actions := user_vo.required_actions.dedup
  let user_mfa2 : MFA :=
    if user_mfa.stateD = "DISABLED" then { user_mfa with mfa_type := none }
    else user_mfa
  let user_mfa3 : MFA := { user_mfa2 with options := optsPop user_mfa2.options "enforce" }
  (.ok (user_mfa3, required_actions.erase "ENFORCE_MFA"), [])

/-- `UserMFAManager.reset_user_mfa`: rejects a non-configured MFA with
`AlreadyDisabled` before doing anything; otherwise deletes the OTP secret
when an enabled OTP was stored, forces DISABLED, and either re-adds
`ENFORCE_MFA` (enforced) or clears `mfa_type` (not enforced). -/
def reset_user_mfa (user_vo : User) (domain_id : String) :
    Except MFAError (MFA × List String) × List ExtCall :=
  if user_vo.mfa.stateD = "DISABLED" ∨ ¬ mfaTypeTruthy user_vo.mfa.mfa_type then
    (.error (.ERROR_MFA_ALREADY_DISABLED user_vo.user_id), [])
  else
    let user_mfa := get_user_mfa_as_dict user_vo
    let required_actions := user_vo.required_actions.dedup
    let calls :=
      if user_mfa.mfa_type = some "OTP" ∧ user_mfa.state = some "ENABLED" then
        delete_otp_secret user_vo domain_id
      else []
    let user_mfa2 : MFA := { user_mfa with state := some "DISABLED" }
    if pyTruthy (optsGet user_mfa2.options "enforce") then
      (.ok (user_mfa2,
            if "ENFORCE_MFA" ∈ required_actions then required_actions
            else required_actions ++ ["ENFORCE_MFA"]), calls)
    else
      (.ok ({ user_mfa2 with mfa_type := none }, required_actions), calls)

/-- `UserMFAManager.prepare_to_enable`: guards (EXTERNAL, enforced-type
conflict, already enabled, per-type required options, supported type) in
source order, then merges the caller options into the stored ones and
delegates to the Type Strategy's `EnableMFA`; the state value is kept (the
account is not yet enabled). Returns the mutated user record. -/
def prepare_to_enable (S : MFAStrategy) (user_vo : User) (mfa_type : String)
    (options : Opts) : Except MFAError User × List ExtCall :=
  if user_vo.auth_type = "EXTERNAL" then
    (.error (.ERROR_NOT_ALLOWED_ACTIONS "MFA"), [])
  else
    let user_mfa := get_user_mfa_as_dict user_vo
    if check_mfa_is_enforced_raises user_mfa mfa_type then
      (.error (.ERROR_INVALID_PARAMETER "mfa.mfa_type"
        "Only requests using the MFA type enforced by admin are allowed."), [])
    else if user_mfa.stateD = "ENABLED" then
      (.error (.ERROR_MFA_ALREADY_ENABLED user_vo.user_id), [])
    else if check_mfa_options_raises options mfa_type then
      (.error (.ERROR_REQUIRED_PARAMETER "options.email"), [])
    else
      match get_manager_by_mfa_type mfa_type with
      | .error e => (.error e, [])
      | .ok _ =>
        let user_mfa2 : MFA :=
          { mfa_type := some mfa_type,
            state := some user_mfa.stateD,
            options := optsMerge user_mfa.options options }
        if mfa_type = "EMAIL" ∨ mfa_type = "OTP" then
          (.ok { user_vo with
                 mfa := S.enable_mfa mfa_type user_vo.user_id user_vo.domain_id user_mfa2 },
           [.enableMFA mfa_type user_vo.user_id])
        else
          (.error (.ERROR_NOT_SUPPORTED_MFA_TYPE ["EMAIL", "OTP"]), [])

/-- `UserMFAManager.confirm_and_enable`: verifies the code through the Type
Strategy; on success the strategy finalises the options, the state becomes
ENABLED, and `ENFORCE_MFA` is removed; on failure `InvalidVerifyCode`. -/
def confirm_and_enable (S : MFAStrategy) (user_vo : User) (verify_code : String) :
    Except MFAError (MFA × List String) × List ExtCall :=
  let user_mfa := get_user_mfa_for_confirmation user_vo
  match user_mfa.mfa_type with
  | none => (.error (.KeyError "mfa_type"), [])
  | some mfa_type =>
    match get_manager_by_mfa_type mfa_type with
    | .error e => (.error e, [])
    | .ok _ =>
      let required_actions := user_vo.required_actions.dedup
      if S.confirm_mfa mfa_type user_vo.user_id user_vo.domain_id verify_code then
        let user_mfa2 := S.set_mfa_options mfa_type user_mfa user_vo.user_id user_vo.domain_id
        let user_mfa3 : MFA := { user_mfa2 with state := some "ENABLED" }
        (.ok (user_mfa3, required_actions.erase "ENFORCE_MFA"),
         [.confirmMFA mfa_type verify_code, .setMFAOptions mfa_type])
      else
        (.error (.ERROR_INVALID_VERIFY_CODE verify_code),
         [.confirmMFA mfa_type verify_code])

/-- `UserMFAManager.confirm_and_disable`: verifies the code through the
Type Strategy; on success the state becomes DISABLED and, depending on
`options.enforce`, `ENFORCE_MFA` is re-added or `mfa_type` cleared. -/
def confirm_and_disable (S : MFAStrategy) (user_vo : User) (verify_code : String) :
    Except MFAError (MFA × List String) × List ExtCall :=
  let user_mfa := get_user_mfa_for_confirmation user_vo
  match user_mfa.mfa_type with
  | none => (.error (.KeyError "mfa_type"), [])
  | some mfa_type =>
    match get_manager_by_mfa_type mfa_type with
    | .error e => (.error e, [])
    | .ok _ =>
      let required_actions := user_vo.required_actions.dedup
      let is_enforced := pyTruthy (optsGet user_mfa.options "enforce")
      if S.confirm_mfa mfa_type user_vo.user_id user_vo.domain_id verify_code then
        let user_mfa2 : MFA := { user_mfa with state := some "DISABLED" }
        if is_enforced then
          (.ok (user_mfa2,
                if "ENFORCE_MFA" ∈ required_actions then required_actions
                else required_actions ++ ["ENFORCE_MFA"]),
           [.confirmMFA mfa_type verify_code])
        else
          (.ok ({ user_mfa2 with mfa_type := none }, required_actions),
           [.confirmMFA mfa_type verify_code])
      else
        (.error (.ERROR_INVALID_VERIFY_CODE verify_code),
         [.confirmMFA mfa_type verify_code])

/-- Persisting an operation's result onto the user record, as the service
layer does between two calls. -/
def persist (u : User) (m : MFA) (ra : List String) : User :=
  { u with mfa := m, required_actions := ra }

/-- Invariant 3 of the spec's data model: a DISABLED state without active
enforcement carries no `mfa_type`. -/
def disabledWithoutEnforceClearsType (m : MFA) : Prop :=
  m.stateD = "DISABLED" → pyTruthy (optsGet m.options "enforce") = false →
    m.mfa_type = none

/-! ## Lookup lemmas for the dict model -/

theorem optsGet_cons (p : String × OptVal) (o : Opts) (k : String) :
    optsGet (p :: o) k = if p.1 = k then some p.2 else optsGet o k := by
  simp only [optsGet, List.find?]
  by_cases h : p.1 = k
  · simp [h]
  · simp [beq_eq_false_iff_ne.mpr h, h]

theorem optsGet_eq_none_iff (o : Opts) (k : String) :
    optsGet o k = none ↔ ∀ p ∈ o, p.1 ≠ k := by
  simp [optsGet, List.find?_eq_none]

theorem optsGet_map_append_of_some (b : Opts) (k : String) (hb : optsGet b k = none)
    (a Y : Opts) (v : OptVal) (ha : optsGet a k = some v) :
    optsGet
      ((a.map (fun p => match optsGet b p.1 with | some w => (p.1, w) | none => p)) ++ Y) k
      = some v := by
  induction a with
  | nil => simp [optsGet] at ha
  | cons p a ih =>
    rw [optsGet_cons] at ha
    simp only [List.map_cons, List.cons_append, optsGet_cons]
    by_cases h : p.1 = k
    · subst h
      rw [hb] at *
      simpa using ha
    · cases hbp : optsGet b p.1 <;> simp only [hbp] <;> rw [if_neg h] <;>
        exact ih (by simpa [h] using ha)

theorem optsGet_map_append_of_none (b : Opts) (k : String)
    (a Y : Opts) (ha : optsGet a k = none) :
    optsGet
      ((a.map (fun p => match optsGet b p.1 with | some w => (p.1, w) | none => p)) ++ Y) k
      = optsGet Y k := by
  induction a with
  | nil => simp
  | cons p a ih =>
    rw [optsGet_cons] at ha
    by_cases h : p.1 = k
    · simp [h] at ha
    · simp only [List.map_cons, List.cons_append, optsGet_cons]
      cases hbp : optsGet b p.1 <;> simp only [hbp] <;> rw [if_neg h] <;>
        exact ih (by simpa [h] using ha)

theorem optsGet_filter_of_none (b : Opts) (g : String × OptVal → Bool) (k : String)
    (hb : optsGet b k = none) : optsGet (b.filter g) k = none := by
  rw [optsGet_eq_none_iff] at hb ⊢
  intro p hp
  exact hb p (List.mem_of_mem_filter hp)

/-- Merging does not touch a key the right-hand dict does not bind. -/
theorem optsGet_merge_of_none (a b : Opts) (k : String) (hb : optsGet b k = none) :
    optsGet (optsMerge a b) k = optsGet a k := by
  unfold optsMerge
  cases hak : optsGet a k with
  | some v => exact optsGet_map_append_of_some b k hb a _ v hak
  | none =>
    rw [optsGet_map_append_of_none b k a _ hak]
    exact optsGet_filter_of_none b _ k hb

/-! ## Lemmas on the required-actions bookkeeping of `set_enforcement` -/

theorem ra_add_enforce_nodup (l : List String) :
    (if "ENFORCE_MFA" ∈ l then l.dedup else l.dedup ++ ["ENFORCE_MFA"]).Nodup := by
  by_cases h : "ENFORCE_MFA" ∈ l
  · simp [h, List.nodup_dedup]
  · rw [if_neg h]
    refine (List.nodup_dedup l).append (by simp) ?_
    intro a ha hb
    simp only [List.mem_singleton] at hb
    subst hb
    exact h (List.mem_dedup.mp ha)

theorem ra_add_enforce_mem (l : List String) :
    "ENFORCE_MFA" ∈ (if "ENFORCE_MFA" ∈ l then l.dedup else l.dedup ++ ["ENFORCE_MFA"]) := by
  by_cases h : "ENFORCE_MFA" ∈ l <;> simp [h]

/-! ## C1 -/

/-- C1 (counterexample): the claim quantifies over every user with an
enabled OTP sub-state, but for an EXTERNAL-auth user `set_enforcement`
raises `NotAllowed` without deleting the secret or switching the type. -/
theorem set_enforcement_external_counterexample :
    set_enforcement
        ⟨"user1", "domain1", "EXTERNAL",
         ⟨some "OTP", some "ENABLED", [("user_secret_id", OptVal.s "secret1")]⟩, []⟩
        "EMAIL" "domain1"
      = (.error (.ERROR_NOT_ALLOWED_ACTIONS "MFA"), []) := rfl

/-- C1 (amended: restricted to non-EXTERNAL users): for every non-EXTERNAL
user with `mfa_type = OTP`, `state = ENABLED` and a non-empty
`options.user_secret_id = S`, `SetEnforcement(user, "EMAIL", domain_id)`
deletes secret `S` through the Secret Store and returns the sub-state
`mfa_type = EMAIL, state = DISABLED, options = {enforce: true}` with
`ENFORCE_MFA` among the returned required actions. -/
theorem set_enforcement_otp_to_email (u : User) (d S : String)
    (hauth : u.auth_type ≠ "EXTERNAL")
    (htype : u.mfa.mfa_type = some "OTP")
    (hstate : u.mfa.state = some "ENABLED")
    (hsec : optsGet u.mfa.options "user_secret_id" = some (OptVal.s S))
    (hS : S ≠ "") :
    ∃ ra, set_enforcement u "EMAIL" d =
        (.ok (⟨some "EMAIL", some "DISABLED", [("enforce", OptVal.b true)]⟩, ra),
         [.deleteSecret d (OptVal.s S)])
      ∧ "ENFORCE_MFA" ∈ ra := by
  refine ⟨if "ENFORCE_MFA" ∈ u.required_actions.dedup then u.required_actions.dedup
          else u.required_actions.dedup ++ ["ENFORCE_MFA"], ?_, ?_⟩
  · simp [set_enforcement, get_user_mfa_as_dict, delete_otp_secret,
      hauth, htype, hsec, pyTruthy, OptVal.truthy, hS]
  · by_cases h : "ENFORCE_MFA" ∈ u.required_actions.dedup
    · simp [h]
    · simp [h]

/-- C1 (witness): the amended theorem applied to a concrete local user. -/
theorem set_enforcement_otp_to_email_witness :
    (("LOCAL" : String) ≠ "EXTERNAL") ∧ (("secret1" : String) ≠ "")
    ∧ (∃ ra, set_enforcement
          ⟨"user1", "domain1", "LOCAL",
           ⟨some "OTP", some "ENABLED", [("user_secret_id", OptVal.s "secret1")]⟩, []⟩
          "EMAIL" "domain1"
        = (.ok (⟨some "EMAIL", some "DISABLED", [("enforce", OptVal.b true)]⟩, ra),
           [.deleteSecret "domain1" (OptVal.s "secret1")])
        ∧ "ENFORCE_MFA" ∈ ra) :=
  ⟨by decide, by decide,
   set_enforcement_otp_to_email
     ⟨"user1", "domain1", "LOCAL",
      ⟨some "OTP", some "ENABLED", [("user_secret_id", OptVal.s "secret1")]⟩, []⟩
     "domain1" "secret1" (by decide) rfl rfl rfl (by decide)⟩

/-! ## C2 -/

/-- C2 (counterexample): `unset_enforcement` performs no `auth_type` check:
on an EXTERNAL user it succeeds, alters the mfa sub-state (popping
`enforce`) and removes `ENFORCE_MFA` from the required actions. -/
theorem unset_enforcement_external_counterexample :
    unset_enforcement
        ⟨"user1", "domain1", "EXTERNAL",
         ⟨some "OTP", some "ENABLED", [("enforce", OptVal.b true)]⟩, ["ENFORCE_MFA"]⟩
      = (.ok (⟨some "OTP", some "ENABLED", []⟩, []), [])
    ∧ (⟨some "OTP", some "ENABLED", []⟩ : MFA)
        ≠ ⟨some "OTP", some "ENABLED", [("enforce", OptVal.b true)]⟩
    ∧ "ENFORCE_MFA" ∈ ["ENFORCE_MFA"] ∧ "ENFORCE_MFA" ∉ ([] : List String) :=
  ⟨rfl, by decide, by decide, by decide⟩

/-- C2 (amended: only `set_enforcement` and `prepare_to_enable` guard
EXTERNAL users): for every EXTERNAL-auth user those two operations fail
with `NotAllowed` before any state change or external call; the remaining
four operations perform no `auth_type` check at all. -/
theorem external_guard (S : MFAStrategy) (u : User) (mfa_type d : String) (options : Opts)
    (hauth : u.auth_type = "EXTERNAL") :
    set_enforcement u mfa_type d = (.error (.ERROR_NOT_ALLOWED_ACTIONS "MFA"), [])
    ∧ prepare_to_enable S u mfa_type options
        = (.error (.ERROR_NOT_ALLOWED_ACTIONS "MFA"), []) := by
  constructor
  · simp [set_enforcement, hauth]
  · simp [prepare_to_enable, hauth]

/-- C2 (witness): the amended theorem applied to a concrete EXTERNAL user. -/
theorem external_guard_witness :
    (("EXTERNAL" : String) = "EXTERNAL")
    ∧ set_enforcement ⟨"user1", "domain1", "EXTERNAL", ⟨none, none, []⟩, []⟩ "OTP" "domain1"
        = (.error (.ERROR_NOT_ALLOWED_ACTIONS "MFA"), [])
    ∧ prepare_to_enable ⟨fun _ _ _ m => m, fun _ _ _ _ => true, fun _ m _ _ => m⟩
        ⟨"user1", "domain1", "EXTERNAL", ⟨none, none, []⟩, []⟩ "OTP" []
        = (.error (.ERROR_NOT_ALLOWED_ACTIONS "MFA"), []) :=
  ⟨rfl,
   (external_guard ⟨fun _ _ _ m => m, fun _ _ _ _ => true, fun _ m _ _ => m⟩
     ⟨"user1", "domain1", "EXTERNAL", ⟨none, none, []⟩, []⟩ "OTP" "domain1" [] rfl).1,
   (external_guard ⟨fun _ _ _ m => m, fun _ _ _ _ => true, fun _ m _ _ => m⟩
     ⟨"user1", "domain1", "EXTERNAL", ⟨none, none, []⟩, []⟩ "OTP" "domain1" [] rfl).2⟩

/-! ## C3 -/

/-- C3: `set_enforcement` is idempotent: applying it again to the persisted
result of a successful call returns exactly the same mfa sub-state and
required-actions list. -/
theorem set_enforcement_idempotent (u : User) (t d : String) (m : MFA) (ra : List String)
    (h : (set_enforcement u t d).1 = .ok (m, ra)) :
    (set_enforcement (persist u m ra) t d).1 = .ok (m, ra) := by
  by_cases hauth : u.auth_type = "EXTERNAL"
  · simp [set_enforcement, hauth] at h
  · by_cases hsw : u.mfa.mfa_type = some t
    · simp [set_enforcement, get_user_mfa_as_dict, hauth, hsw] at h
      obtain ⟨hm, hra⟩ := h
      subst hm hra
      simp [set_enforcement, persist, get_user_mfa_as_dict, hauth, hsw]
      rw [List.dedup_eq_self.mpr (ra_add_enforce_nodup u.required_actions),
        if_pos (ra_add_enforce_mem u.required_actions)]
    · simp [set_enforcement, get_user_mfa_as_dict, hauth, hsw] at h
      obtain ⟨hm, hra⟩ := h
      subst hm hra
      simp [set_enforcement, persist, get_user_mfa_as_dict, hauth]
      rw [List.dedup_eq_self.mpr (ra_add_enforce_nodup u.required_actions),
        if_pos (ra_add_enforce_mem u.required_actions)]

/-- C3 (witness): idempotence at a concrete user. -/
theorem set_enforcement_idempotent_witness :
    ((set_enforcement ⟨"user1", "domain1", "LOCAL", ⟨none, none, []⟩, []⟩ "OTP" "domain1").1
        = .ok (⟨some "OTP", some "DISABLED", [("enforce", OptVal.b true)]⟩, ["ENFORCE_MFA"]))
    ∧ (set_enforcement
        (persist ⟨"user1", "domain1", "LOCAL", ⟨none, none, []⟩, []⟩
          ⟨some "OTP", some "DISABLED", [("enforce", OptVal.b true)]⟩ ["ENFORCE_MFA"])
        "OTP" "domain1").1
        = .ok (⟨some "OTP", some "DISABLED", [("enforce", OptVal.b true)]⟩, ["ENFORCE_MFA"]) :=
  ⟨rfl,
   set_enforcement_idempotent ⟨"user1", "domain1", "LOCAL", ⟨none, none, []⟩, []⟩
     "OTP" "domain1" ⟨some "OTP", some "DISABLED", [("enforce", OptVal.b true)]⟩
     ["ENFORCE_MFA"] rfl⟩

/-! ## C4 -/

/-- C4 (counterexample): re-enforcing the stored type replaces the whole
options dict with `{enforce: true}`: the prior `user_secret_id` key is
dropped although `mfa_type` did not change. -/
theorem set_enforcement_same_type_counterexample :
    (set_enforcement
        ⟨"user1", "domain1", "LOCAL",
         ⟨some "OTP", some "ENABLED", [("user_secret_id", OptVal.s "secret1")]⟩, []⟩
        "OTP" "domain1").1
      = .ok (⟨some "OTP", some "ENABLED", [("enforce", OptVal.b true)]⟩, ["ENFORCE_MFA"])
    ∧ optsGet [("user_secret_id", OptVal.s "secret1")] "user_secret_id"
        = some (OptVal.s "secret1")
    ∧ optsGet [("enforce", OptVal.b true)] "user_secret_id" = none :=
  ⟨rfl, rfl, rfl⟩

/-- C4 (amended: the options are replaced, not merged): for every
non-EXTERNAL user whose stored `mfa_type` equals the requested one,
`set_enforcement` leaves `mfa_type` and `state` unchanged but replaces
`options` by exactly `{enforce: true}`, discarding every other key; no
Secret Store deletion is performed. -/
theorem set_enforcement_same_type (u : User) (t d : String)
    (hauth : u.auth_type ≠ "EXTERNAL")
    (htype : u.mfa.mfa_type = some t) :
    ∃ ra, set_enforcement u t d
        = (.ok (⟨u.mfa.mfa_type, u.mfa.state, [("enforce", OptVal.b true)]⟩, ra), [])
      ∧ "ENFORCE_MFA" ∈ ra := by
  refine ⟨if "ENFORCE_MFA" ∈ u.required_actions then u.required_actions.dedup
          else u.required_actions.dedup ++ ["ENFORCE_MFA"], ?_,
          ra_add_enforce_mem u.required_actions⟩
  simp [set_enforcement, get_user_mfa_as_dict, hauth, htype]

/-- C4 (witness): the amended theorem at a concrete user carrying a
`user_secret_id` option. -/
theorem set_enforcement_same_type_witness :
    (("LOCAL" : String) ≠ "EXTERNAL")
    ∧ (∃ ra, set_enforcement
          ⟨"user1", "domain1", "LOCAL",
           ⟨some "OTP", some "ENABLED", [("user_secret_id", OptVal.s "secret1")]⟩, []⟩
          "OTP" "domain1"
        = (.ok (⟨some "OTP", some "ENABLED", [("enforce", OptVal.b true)]⟩, ra), [])
      ∧ "ENFORCE_MFA" ∈ ra) :=
  ⟨by decide,
   set_enforcement_same_type
     ⟨"user1", "domain1", "LOCAL",
      ⟨some "OTP", some "ENABLED", [("user_secret_id", OptVal.s "secret1")]⟩, []⟩
     "OTP" "domain1" (by decide) rfl⟩

/-! ## C5 -/

/-- C5: `reset_user_mfa` raises `AlreadyDisabled` exactly when the stored
state (defaulting to DISABLED) is DISABLED or no `mfa_type` is stored, the
check happening before any other work: on that condition the result is the
error with an empty external-call trace (no Secret Store deletion, no state
change). The hypothesis rules out the ill-typed value `mfa_type = ""`,
which the spec's data model (an optional OTP/EMAIL enum) excludes. -/
theorem reset_user_mfa_already_disabled_iff (u : User) (d : String)
    (hwf : u.mfa.mfa_type ≠ some "") :
    ((∃ e, (reset_user_mfa u d).1 = .error e)
        ↔ (u.mfa.stateD = "DISABLED" ∨ u.mfa.mfa_type = none))
    ∧ ((u.mfa.stateD = "DISABLED" ∨ u.mfa.mfa_type = none) →
        reset_user_mfa u d = (.error (.ERROR_MFA_ALREADY_DISABLED u.user_id), [])) := by
  have hguard : (mfaTypeTruthy u.mfa.mfa_type = false) ↔ u.mfa.mfa_type = none := by
    cases hm : u.mfa.mfa_type with
    | none => simp [mfaTypeTruthy]
    | some s =>
      rw [hm] at hwf
      have hs : s ≠ "" := fun hss => hwf (by rw [hss])
      simp [mfaTypeTruthy, hs]
  by_cases hg : u.mfa.stateD = "DISABLED" ∨ mfaTypeTruthy u.mfa.mfa_type = false
  · have hc : reset_user_mfa u d = (.error (.ERROR_MFA_ALREADY_DISABLED u.user_id), []) := by
      simp [reset_user_mfa, hg]
    refine ⟨⟨fun _ => ?_, fun _ => ⟨_, by rw [hc]⟩⟩, fun _ => hc⟩
    exact hg.imp id hguard.mp
  · have hok : ∀ e, (reset_user_mfa u d).1 ≠ .error e := by
      intro e he
      by_cases henf : pyTruthy (optsGet u.mfa.options "enforce") = true
      · simp [reset_user_mfa, get_user_mfa_as_dict, hg, henf] at he
      · simp [reset_user_mfa, get_user_mfa_as_dict, hg, henf] at he
    have hng : ¬ (u.mfa.stateD = "DISABLED" ∨ u.mfa.mfa_type = none) := fun hc =>
      hg (hc.imp id hguard.mpr)
    exact ⟨⟨fun he => absurd he.choose_spec (hok he.choose), fun hc => absurd hc hng⟩,
           fun hc => absurd hc hng⟩

/-- C5 (witness): the theorem at a user with no configured MFA. -/
theorem reset_user_mfa_already_disabled_iff_witness :
    ((none : Option String) ≠ some "")
    ∧ (((∃ e, (reset_user_mfa
            ⟨"user1", "domain1", "LOCAL", ⟨none, none, []⟩, []⟩ "domain1").1 = .error e)
        ↔ ((⟨none, none, []⟩ : MFA).stateD = "DISABLED"
           ∨ (none : Option String) = none))
      ∧ (((⟨none, none, []⟩ : MFA).stateD = "DISABLED" ∨ (none : Option String) = none) →
          reset_user_mfa ⟨"user1", "domain1", "LOCAL", ⟨none, none, []⟩, []⟩ "domain1"
            = (.error (.ERROR_MFA_ALREADY_DISABLED "user1"), []))) :=
  ⟨by decide,
   reset_user_mfa_already_disabled_iff
     ⟨"user1", "domain1", "LOCAL", ⟨none, none, []⟩, []⟩ "domain1" (by decide)⟩

/-! ## C6 -/

/-- C6: when the pending sub-state carries a supported `mfa_type` and the
Type Strategy accepts the code, `confirm_and_disable` succeeds with state
DISABLED; with active enforcement the type is kept and `ENFORCE_MFA` is in
the returned required actions, without enforcement the type is cleared. -/
theorem confirm_and_disable_success (S : MFAStrategy) (u : User) (code t : String)
    (ht : u.mfa.mfa_type = some t)
    (hsupp : t = "EMAIL" ∨ t = "OTP")
    (hok : S.confirm_mfa t u.user_id u.domain_id code = true) :
    ∃ m ra, (confirm_and_disable S u code).1 = .ok (m, ra)
      ∧ m.state = some "DISABLED"
      ∧ (pyTruthy (optsGet u.mfa.options "enforce") = true →
          m.mfa_type = some t ∧ "ENFORCE_MFA" ∈ ra)
      ∧ (pyTruthy (optsGet u.mfa.options "enforce") = false → m.mfa_type = none) := by
  by_cases henf : pyTruthy (optsGet u.mfa.options "enforce") = true
  · refine ⟨⟨u.mfa.mfa_type, some "DISABLED", u.mfa.options⟩,
      if "ENFORCE_MFA" ∈ u.required_actions then u.required_actions.dedup
      else u.required_actions.dedup ++ ["ENFORCE_MFA"], ?_, rfl, ?_, ?_⟩
    · simp [confirm_and_disable, get_user_mfa_for_confirmation, get_manager_by_mfa_type,
        ht, hsupp, hok, henf]
    · intro _
      exact ⟨ht, ra_add_enforce_mem u.required_actions⟩
    · intro hf
      rw [henf] at hf
      exact absurd hf (by simp)
  · refine ⟨⟨none, some "DISABLED", u.mfa.options⟩, u.required_actions.dedup, ?_, rfl,
      fun hf => absurd hf henf, fun _ => rfl⟩
    simp [confirm_and_disable, get_user_mfa_for_confirmation, get_manager_by_mfa_type,
      ht, hsupp, hok, henf]

/-- C6 (witness): the theorem at a concrete enforced OTP user with a
strategy that accepts the code. -/
theorem confirm_and_disable_success_witness :
    ((some "OTP" : Option String) = some "OTP")
    ∧ (("OTP" : String) = "EMAIL" ∨ ("OTP" : String) = "OTP")
    ∧ (∃ m ra, (confirm_and_disable
          ⟨fun _ _ _ m => m, fun _ _ _ _ => true, fun _ m _ _ => m⟩
          ⟨"user1", "domain1", "LOCAL",
           ⟨some "OTP", some "ENABLED", [("enforce", OptVal.b true)]⟩, []⟩
          "123456").1 = .ok (m, ra)
        ∧ m.state = some "DISABLED"
        ∧ (pyTruthy (optsGet [("enforce", OptVal.b true)] "enforce") = true →
            m.mfa_type = some "OTP" ∧ "ENFORCE_MFA" ∈ ra)
        ∧ (pyTruthy (optsGet [("enforce", OptVal.b true)] "enforce") = false →
            m.mfa_type = none)) :=
  ⟨rfl, Or.inr rfl,
   confirm_and_disable_success
     ⟨fun _ _ _ m => m, fun _ _ _ _ => true, fun _ m _ _ => m⟩
     ⟨"user1", "domain1", "LOCAL",
      ⟨some "OTP", some "ENABLED", [("enforce", OptVal.b true)]⟩, []⟩
     "123456" "OTP" rfl (Or.inr rfl) rfl⟩

/-! ## C7 -/

/-- C7: for a non-EXTERNAL user that is not already enabled and has no
conflicting enforced type, `prepare_to_enable` with `mfa_type = EMAIL` and
no `email` key in the caller options fails with `RequiredParameter` and an
empty external-call trace, hence before any Type Strategy invocation and
without touching the user record. -/
theorem prepare_to_enable_email_requires_email (S : MFAStrategy) (u : User) (options : Opts)
    (hauth : u.auth_type ≠ "EXTERNAL")
    (hconf : check_mfa_is_enforced_raises u.mfa "EMAIL" = false)
    (hstate : u.mfa.stateD ≠ "ENABLED")
    (hmail : optsGet options "email" = none) :
    prepare_to_enable S u "EMAIL" options
      = (.error (.ERROR_REQUIRED_PARAMETER "options.email"), []) := by
  simp [prepare_to_enable, get_user_mfa_as_dict, check_mfa_options_raises,
    hauth, hconf, hstate, hmail]

/-- C7 (witness): the theorem at a concrete unenrolled local user with
empty caller options. -/
theorem prepare_to_enable_email_requires_email_witness :
    (("LOCAL" : String) ≠ "EXTERNAL")
    ∧ (check_mfa_is_enforced_raises ⟨none, none, []⟩ "EMAIL" = false)
    ∧ (optsGet ([] : Opts) "email" = none)
    ∧ prepare_to_enable ⟨fun _ _ _ m => m, fun _ _ _ _ => true, fun _ m _ _ => m⟩
        ⟨"user1", "domain1", "LOCAL", ⟨none, none, []⟩, []⟩ "EMAIL" []
        = (.error (.ERROR_REQUIRED_PARAMETER "options.email"), []) :=
  ⟨by decide, rfl, rfl,
   prepare_to_enable_email_requires_email
     ⟨fun _ _ _ m => m, fun _ _ _ _ => true, fun _ m _ _ => m⟩
     ⟨"user1", "domain1", "LOCAL", ⟨none, none, []⟩, []⟩ []
     (by decide) rfl (by decide) rfl⟩

/-! ## C8 -/

/-- C8 (counterexample): the pending sub-state produced by a successful
`prepare_to_enable` (here: voluntary EMAIL enrollment with a pass-through
strategy) has `state = DISABLED`, no truthy `enforce`, and a present
`mfa_type`, violating the claimed invariant. -/
theorem prepare_to_enable_invariant_counterexample :
    (prepare_to_enable ⟨fun _ _ _ m => m, fun _ _ _ _ => true, fun _ m _ _ => m⟩
        ⟨"user1", "domain1", "LOCAL", ⟨none, none, []⟩, []⟩
        "EMAIL" [("email", OptVal.s "user@example.com")]).1
      = .ok ⟨"user1", "domain1", "LOCAL",
            ⟨some "EMAIL", some "DISABLED", [("email", OptVal.s "user@example.com")]⟩, []⟩
    ∧ ¬ disabledWithoutEnforceClearsType
        ⟨some "EMAIL", some "DISABLED", [("email", OptVal.s "user@example.com")]⟩ :=
  ⟨rfl, fun hinv => by simpa using hinv rfl rfl⟩

/-- C8 (amended: the invariant holds after the five operations other than
`prepare_to_enable`, whose pending state may violate it): every successful
`set_enforcement`, `unset_enforcement`, `reset_user_mfa`,
`confirm_and_enable` or `confirm_and_disable` returns a sub-state in which
a DISABLED state without truthy `enforce` has no `mfa_type`. -/
theorem disabled_without_enforce_invariant (S : MFAStrategy) (u : User)
    (t d code : String) (m : MFA) (ra : List String) :
    ((set_enforcement u t d).1 = .ok (m, ra) → disabledWithoutEnforceClearsType m)
    ∧ ((unset_enforcement u).1 = .ok (m, ra) → disabledWithoutEnforceClearsType m)
    ∧ ((reset_user_mfa u d).1 = .ok (m, ra) → disabledWithoutEnforceClearsType m)
    ∧ ((confirm_and_enable S u code).1 = .ok (m, ra) → disabledWithoutEnforceClearsType m)
    ∧ ((confirm_and_disable S u code).1 = .ok (m, ra) → disabledWithoutEnforceClearsType m) := by
  refine ⟨?_, ?_, ?_, ?_, ?_⟩
  · intro h
    by_cases hauth : u.auth_type = "EXTERNAL"
    · simp [set_enforcement, hauth] at h
    · by_cases hsw : u.mfa.mfa_type = some t
      · simp [set_enforcement, get_user_mfa_as_dict, hauth, hsw] at h
        obtain ⟨hm, -⟩ := h
        subst hm
        intro _ hfalse
        simp [optsGet, pyTruthy, OptVal.truthy] at hfalse
      · simp [set_enforcement, get_user_mfa_as_dict, hauth, hsw] at h
        obtain ⟨hm, -⟩ := h
        subst hm
        intro _ hfalse
        simp [optsGet, pyTruthy, OptVal.truthy] at hfalse
  · intro h
    by_cases hst : u.mfa.stateD = "DISABLED"
    · simp [unset_enforcement, get_user_mfa_as_dict, hst] at h
      obtain ⟨hm, -⟩ := h
      subst hm
      intro _ _
      rfl
    · simp [unset_enforcement, get_user_mfa_as_dict, hst] at h
      obtain ⟨hm, -⟩ := h
      subst hm
      intro hd _
      exact absurd (by simpa [MFA.stateD] using hd) (by simpa [MFA.stateD] using hst)
  · intro h
    by_cases hg : u.mfa.stateD = "DISABLED" ∨ mfaTypeTruthy u.mfa.mfa_type = false
    · simp [reset_user_mfa, hg] at h
    · by_cases henf : pyTruthy (optsGet u.mfa.options "enforce") = true
      · simp [reset_user_mfa, get_user_mfa_as_dict, hg, henf] at h
        obtain ⟨hm, -⟩ := h
        subst hm
        intro _ hfalse
        exact absurd hfalse (by simp [henf])
      · simp [reset_user_mfa, get_user_mfa_as_dict, hg, henf] at h
        obtain ⟨hm, -⟩ := h
        subst hm
        intro _ _
        rfl
  · intro h
    cases hmt : u.mfa.mfa_type with
    | none => simp [confirm_and_enable, get_user_mfa_for_confirmation, hmt] at h
    | some t2 =>
      by_cases hman : t2 = "EMAIL" ∨ t2 = "OTP"
      · by_cases hc : S.confirm_mfa t2 u.user_id u.domain_id code = true
        · simp [confirm_and_enable, get_user_mfa_for_confirmation, get_manager_by_mfa_type,
            hmt, hman, hc] at h
          obtain ⟨hm, -⟩ := h
          subst hm
          intro hd _
          simp [MFA.stateD] at hd
        · simp [confirm_and_enable, get_user_mfa_for_confirmation, get_manager_by_mfa_type,
            hmt, hman, hc] at h
      · simp [confirm_and_enable, get_user_mfa_for_confirmation, get_manager_by_mfa_type,
          hmt, hman] at h
  · intro h
    cases hmt : u.mfa.mfa_type with
    | none => simp [confirm_and_disable, get_user_mfa_for_confirmation, hmt] at h
    | some t2 =>
      by_cases hman : t2 = "EMAIL" ∨ t2 = "OTP"
      · by_cases hc : S.confirm_mfa t2 u.user_id u.domain_id code = true
        · by_cases henf : pyTruthy (optsGet u.mfa.options "enforce") = true
          · simp [confirm_and_disable, get_user_mfa_for_confirmation, get_manager_by_mfa_type,
              hmt, hman, hc, henf] at h
            obtain ⟨hm, -⟩ := h
            subst hm
            intro _ hfalse
            exact absurd hfalse (by simp [henf])
          · simp [confirm_and_disable, get_user_mfa_for_confirmation, get_manager_by_mfa_type,
              hmt, hman, hc, henf] at h
            obtain ⟨hm, -⟩ := h
            subst hm
            intro _ _
            rfl
        · simp [confirm_and_disable, get_user_mfa_for_confirmation, get_manager_by_mfa_type,
            hmt, hman, hc] at h
      · simp [confirm_and_disable, get_user_mfa_for_confirmation, get_manager_by_mfa_type,
          hmt, hman] at h

/-- C8 (witness): the amended invariant observed on a concrete
`unset_enforcement` result. -/
theorem disabled_without_enforce_invariant_witness :
    ((unset_enforcement ⟨"user1", "domain1", "LOCAL", ⟨some "OTP", none, []⟩, []⟩).1
        = .ok (⟨none, none, []⟩, []))
    ∧ disabledWithoutEnforceClearsType ⟨none, none, []⟩ :=
  ⟨rfl,
   (disabled_without_enforce_invariant
      ⟨fun _ _ _ m => m, fun _ _ _ _ => true, fun _ m _ _ => m⟩
      ⟨"user1", "domain1", "LOCAL", ⟨some "OTP", none, []⟩, []⟩
      "OTP" "domain1" "123456" ⟨none, none, []⟩ []).2.1 rfl⟩

/-! ## C9 -/

/-- C9 (counterexample): `prepare_to_enable` merges the caller-supplied
options into the stored ones, so a caller options dict carrying `enforce`
changes `options.enforce` during an enable operation. -/
theorem prepare_to_enable_enforce_counterexample :
    (prepare_to_enable ⟨fun _ _ _ m => m, fun _ _ _ _ => true, fun _ m _ _ => m⟩
        ⟨"user1", "domain1", "LOCAL", ⟨none, none, []⟩, []⟩
        "EMAIL" [("email", OptVal.s "user@example.com"), ("enforce", OptVal.b true)]).1
      = .ok ⟨"user1", "domain1", "LOCAL",
            ⟨some "EMAIL", some "DISABLED",
             [("email", OptVal.s "user@example.com"), ("enforce", OptVal.b true)]⟩, []⟩
    ∧ optsGet ([] : Opts) "enforce" = none
    ∧ optsGet [("email", OptVal.s "user@example.com"), ("enforce", OptVal.b true)] "enforce"
        = some (OptVal.b true) :=
  ⟨rfl, rfl, rfl⟩

/-- C9 (amended: provided the caller options do not bind `enforce` and the
Type Strategy preserves the `enforce` entry): `prepare_to_enable`,
`confirm_and_enable` and `confirm_and_disable` return an options dict whose
`enforce` binding equals the one stored before the call. -/
theorem enforce_untouched_by_enable_disable (S : MFAStrategy) (u : User)
    (t code : String) (options : Opts) (u2 : User) (m : MFA) (ra : List String)
    (hopt : optsGet options "enforce" = none)
    (hE : ∀ t2 uid did m2, optsGet (S.enable_mfa t2 uid did m2).options "enforce"
            = optsGet m2.options "enforce")
    (hSO : ∀ t2 m2 uid did, optsGet (S.set_mfa_options t2 m2 uid did).options "enforce"
            = optsGet m2.options "enforce") :
    ((prepare_to_enable S u t options).1 = .ok u2 →
        optsGet u2.mfa.options "enforce" = optsGet u.mfa.options "enforce")
    ∧ ((confirm_and_enable S u code).1 = .ok (m, ra) →
        optsGet m.options "enforce" = optsGet u.mfa.options "enforce")
    ∧ ((confirm_and_disable S u code).1 = .ok (m, ra) →
        optsGet m.options "enforce" = optsGet u.mfa.options "enforce") := by
  refine ⟨?_, ?_, ?_⟩
  · intro h
    by_cases hauth : u.auth_type = "EXTERNAL"
    · simp [prepare_to_enable, hauth] at h
    · by_cases hcf : check_mfa_is_enforced_raises u.mfa t = true
      · simp [prepare_to_enable, get_user_mfa_as_dict, hauth, hcf] at h
      · by_cases hst : u.mfa.stateD = "ENABLED"
        · simp [prepare_to_enable, get_user_mfa_as_dict, hauth, hcf, hst] at h
        · by_cases hco : check_mfa_options_raises options t = true
          · simp [prepare_to_enable, get_user_mfa_as_dict, hauth, hcf, hst, hco] at h
          · by_cases hman : t = "EMAIL" ∨ t = "OTP"
            · simp [prepare_to_enable, get_user_mfa_as_dict, get_manager_by_mfa_type,
                hauth, hcf, hst, hco, hman] at h
              subst h
              rw [hE]
              exact optsGet_merge_of_none _ _ _ hopt
            · simp [prepare_to_enable, get_user_mfa_as_dict, get_manager_by_mfa_type,
                hauth, hcf, hst, hco, hman] at h
  · intro h
    cases hmt : u.mfa.mfa_type with
    | none => simp [confirm_and_enable, get_user_mfa_for_confirmation, hmt] at h
    | some t2 =>
      by_cases hman : t2 = "EMAIL" ∨ t2 = "OTP"
      · by_cases hc : S.confirm_mfa t2 u.user_id u.domain_id code = true
        · simp [confirm_and_enable, get_user_mfa_for_confirmation, get_manager_by_mfa_type,
            hmt, hman, hc] at h
          obtain ⟨hm, -⟩ := h
          subst hm
          exact hSO t2 u.mfa u.user_id u.domain_id
        · simp [confirm_and_enable, get_user_mfa_for_confirmation, get_manager_by_mfa_type,
            hmt, hman, hc] at h
      · simp [confirm_and_enable, get_user_mfa_for_confirmation, get_manager_by_mfa_type,
          hmt, hman] at h
  · intro h
    cases hmt : u.mfa.mfa_type with
    | none => simp [confirm_and_disable, get_user_mfa_for_confirmation, hmt] at h
    | some t2 =>
      by_cases hman : t2 = "EMAIL" ∨ t2 = "OTP"
      · by_cases hc : S.confirm_mfa t2 u.user_id u.domain_id code = true
        · by_cases henf : pyTruthy (optsGet u.mfa.options "enforce") = true
          · simp [confirm_and_disable, get_user_mfa_for_confirmation, get_manager_by_mfa_type,
              hmt, hman, hc, henf] at h
            obtain ⟨hm, -⟩ := h
            subst hm
            rfl
          · simp [confirm_and_disable, get_user_mfa_for_confirmation, get_manager_by_mfa_type,
              hmt, hman, hc, henf] at h
            obtain ⟨hm, -⟩ := h
            subst hm
            rfl
        · simp [confirm_and_disable, get_user_mfa_for_confirmation, get_manager_by_mfa_type,
            hmt, hman, hc] at h
      · simp [confirm_and_disable, get_user_mfa_for_confirmation, get_manager_by_mfa_type,
          hmt, hman] at h

/-- C9 (witness): the amended theorem observed on a concrete voluntary
EMAIL enrollment with a pass-through strategy. -/
theorem enforce_untouched_by_enable_disable_witness :
    (optsGet [("email", OptVal.s "user@example.com")] "enforce" = none)
    ∧ optsGet [("email", OptVal.s "user@example.com")] "enforce"
        = optsGet ([] : Opts) "enforce" :=
  ⟨rfl,
   (enforce_untouched_by_enable_disable
      ⟨fun _ _ _ m => m, fun _ _ _ _ => true, fun _ m _ _ => m⟩
      ⟨"user1", "domain1", "LOCAL", ⟨none, none, []⟩, []⟩
      "EMAIL" "123456" [("email", OptVal.s "user@example.com")]
      ⟨"user1", "domain1", "LOCAL",
       ⟨some "EMAIL", some "DISABLED", [("email", OptVal.s "user@example.com")]⟩, []⟩
      ⟨none, none, []⟩ [] rfl (fun _ _ _ _ => rfl) (fun _ _ _ _ => rfl)).1 rfl⟩

/-! ## C10 -/

/-- C10: for a non-EXTERNAL user (with `user_secret_id`, when present,
holding a string, as the data model prescribes), `set_enforcement` performs
a Secret Store deletion exactly when the requested type differs from the
stored one, the stored type is OTP, and a non-empty `user_secret_id` is
stored; in particular re-enforcing the stored type never deletes. -/
theorem set_enforcement_deletes_iff (u : User) (t d : String)
    (hauth : u.auth_type ≠ "EXTERNAL")
    (hwf : ∀ v, optsGet u.mfa.options "user_secret_id" = some v → ∃ s, v = OptVal.s s) :
    ((∃ dd sid, ExtCall.deleteSecret dd sid ∈ (set_enforcement u t d).2)
        ↔ (u.mfa.mfa_type ≠ some t ∧ u.mfa.mfa_type = some "OTP"
           ∧ ∃ s, optsGet u.mfa.options "user_secret_id" = some (OptVal.s s) ∧ s ≠ ""))
    ∧ (u.mfa.mfa_type = some t → (set_enforcement u t d).2 = []) := by
  constructor
  · by_cases hsw : u.mfa.mfa_type = some t
    · simp [set_enforcement, get_user_mfa_as_dict, hauth, hsw]
    · by_cases hotp : u.mfa.mfa_type = some "OTP"
      · have hOT : ¬ (("OTP" : String) = t) := fun he => hsw (by rw [hotp, he])
        cases hsec : optsGet u.mfa.options "user_secret_id" with
        | none =>
          simp [set_enforcement, get_user_mfa_as_dict, delete_otp_secret,
            hauth, hsw, hotp, hsec, pyTruthy, hOT]
        | some v =>
          obtain ⟨s, rfl⟩ := hwf v hsec
          by_cases hs : s = ""
          · subst hs
            simp [set_enforcement, get_user_mfa_as_dict, delete_otp_secret,
              hauth, hsw, hotp, hsec, pyTruthy, OptVal.truthy, hOT]
          · simp [set_enforcement, get_user_mfa_as_dict, delete_otp_secret,
              hauth, hsw, hotp, hsec, pyTruthy, OptVal.truthy, hs, hOT]
      · simp [set_enforcement, get_user_mfa_as_dict, hauth, hsw, hotp]
  · intro hsw
    simp [set_enforcement, get_user_mfa_as_dict, hauth, hsw]

/-- C10 (witness): the deletion characterisation at a concrete enabled OTP
user being switched to EMAIL. -/
theorem set_enforcement_deletes_iff_witness :
    (("LOCAL" : String) ≠ "EXTERNAL")
    ∧ (((∃ dd sid, ExtCall.deleteSecret dd sid ∈
            (set_enforcement
              ⟨"user1", "domain1", "LOCAL",
               ⟨some "OTP", some "ENABLED", [("user_secret_id", OptVal.s "secret1")]⟩, []⟩
              "EMAIL" "domain1").2)
        ↔ ((some "OTP" : Option String) ≠ some "EMAIL"
           ∧ (some "OTP" : Option String) = some "OTP"
           ∧ ∃ s, optsGet [("user_secret_id", OptVal.s "secret1")] "user_secret_id"
                = some (OptVal.s s) ∧ s ≠ ""))
      ∧ ((some "OTP" : Option String) = some "EMAIL" →
          (set_enforcement
            ⟨"user1", "domain1", "LOCAL",
             ⟨some "OTP", some "ENABLED", [("user_secret_id", OptVal.s "secret1")]⟩, []⟩
            "EMAIL" "domain1").2 = [])) :=
  ⟨by decide,
   set_enforcement_deletes_iff
     ⟨"user1", "domain1", "LOCAL",
      ⟨some "OTP", some "ENABLED", [("user_secret_id", OptVal.s "secret1")]⟩, []⟩
     "EMAIL" "domain1" (by decide)
     (fun v hv => ⟨"secret1", by simpa [optsGet] using hv.symm⟩)⟩

end Identity.MFA
